import Mathlib

/-!
Verification of the `tracing-error` crate core: span-trace capture and
formatting, the heap and stack error-attachment wrappers, the type-erased
extraction query, and the build-time strategy selection.

The repository source provides `src/tracing-error/src/lib.rs`, which holds
the extension-trait declarations (`InstrumentError`, `InstrumentResult`,
`ExtractSpanTrace`), the feature-gated re-exports of `TracedError`, and the
crate documentation.  The implementation modules it declares
(`backtrace.rs`, `heap_error.rs`, `stack_error.rs`, `layer.rs`) are not in
the source tree, so their behavior is modelled from the specification
(sections 4.1 through 4.6) and checked against the trait signatures and
feature gates that are present in `lib.rs`.
-/

/-- A scope record: the metadata the scope-tracking runtime owns for one
scope, referenced by an opaque numeric identity.  Name, target and identity
are immutable after creation (spec section 3, Scope Record). -/
structure ScopeRecord where
  sid : Nat
  name : String
  target : String
deriving DecidableEq, Repr

/-- Modelled from the spec: the Extension Store (`layer.rs` is not under
src/).  A per-scope cache of rendered field text keyed by scope identity
(spec sections 2 and 3, Cached Rendering). -/
def Store := List (Nat × String)

/-- Look up the cached field rendering for a scope identity. -/
def Store.find : Store → Nat → Option String
  | [], _ => none
  | (k, v) :: rest, sid => if k = sid then some v else Store.find rest sid

/-- Modelled from the spec: a `SpanTrace` (Context Snapshot, `backtrace.rs`
is not under src/): the ordered sequence of scopes from the scope active at
capture time (innermost first) up to the root, or the empty sentinel `[]`
when no scope is active (spec section 3, Context Snapshot). -/
abbrev SpanTrace := List ScopeRecord

/-- Modelled from the spec: `SpanTrace::capture` records the identity chain
of the current scope stack, innermost first; with no active scope it
returns the empty sentinel.  It is total: capture cannot fail
(spec section 4.2). -/
def SpanTrace.capture (stack : List ScopeRecord) : SpanTrace := stack

/-- The fixed placeholder line an empty snapshot renders to
(spec sections 4.2 and 6). -/
def noSpanLine : String := "   (no active span context)"

/-- The field text rendered for one scope at format time: the Cached
Rendering is looked up fresh in the Extension Store, degrading to empty
text when absent (spec section 4.2). -/
def fieldsSuffix (store : Store) (s : ScopeRecord) : String :=
  match Store.find store s.sid with
  | some f => if f = "" then "" else " with " ++ f
  | none => ""

/-- One formatted line of a snapshot: index (depth from root, 0-based),
then target, name and the fields rendering (spec section 6). -/
def scopeLine (store : Store) (i : Nat) (s : ScopeRecord) : String :=
  "   " ++ toString i ++ ": " ++ s.target ++ "::" ++ s.name ++
    fieldsSuffix store s

/-- Modelled from the spec: formatting a snapshot produces one line per
scope, oldest ancestor first, with the root at index 0 and the capture
point at index D-1; the empty snapshot produces the single fixed
placeholder line (spec sections 4.2 and 6). -/
def SpanTrace.formatLines (store : Store) (st : SpanTrace) : List String :=
  if st = [] then [noSpanLine]
  else st.reverse.enum.map fun p => scopeLine store p.1 p.2

/-- The full Display rendering of a snapshot: its lines joined by
newlines. -/
def SpanTrace.formatTrace (store : Store) (st : SpanTrace) : String :=
  String.intercalate "\n" (SpanTrace.formatLines store st)

/-- Two consecutive Display renderings of the same snapshot against the
same store state, modelling re-formatting with no intervening scope
teardown. -/
def SpanTrace.formatTwice (store : Store) (st : SpanTrace) :
    String × String :=
  (SpanTrace.formatTrace store st, SpanTrace.formatTrace store st)

/-- Modelled from the spec: the universe of error values seen through the
`dyn Error` interface (`heap_error.rs` and `stack_error.rs` are not under
src/).  `base` is an ordinary error with a message and an optional cause;
`heapTraced` is the Heap Attachment Wrapper (spec section 4.3);
`stackTraced` is the Stack Attachment Wrapper (spec section 4.4); `eraser`
is the non-generic tagged eraser value embedded in a stack wrapper, which
carries (a reference to) the wrapper's snapshot and stands in for the
wrapper's inner error in the cause chain. -/
inductive ErrorVal : Type where
  | base (msg : String) (src : Option ErrorVal) : ErrorVal
  | heapTraced (trace : SpanTrace) (inner : ErrorVal) : ErrorVal
  | stackTraced (trace : SpanTrace) (inner : ErrorVal) : ErrorVal
  | eraser (trace : SpanTrace) (inner : ErrorVal) : ErrorVal

/-- The `Error::source` (cause) of an error value.  A heap wrapper's cause
is its inner error (spec section 4.3).  A stack wrapper's cause is its
embedded tagged eraser (spec section 4.4).  The eraser delegates to the
inner error's own cause, so exactly one new hop is inserted into the chain
(spec section 7). -/
def ErrorVal.source : ErrorVal → Option ErrorVal
  | .base _ s => s
  | .heapTraced _ inner => some inner
  | .stackTraced tr inner => some (.eraser tr inner)
  | .eraser _ inner => inner.source

/-- The Display rendering of an error value.  Both Attachment Wrappers
render the inner error's message followed by the formatted snapshot (spec
sections 4.3 and 4.5); the eraser renders the original inner error's
message, so the erasure hop loses nothing for display purposes. -/
def ErrorVal.display (store : Store) : ErrorVal → String
  | .base msg _ => msg
  | .heapTraced tr inner =>
      inner.display store ++ "\n" ++ SpanTrace.formatTrace store tr
  | .stackTraced tr inner =>
      inner.display store ++ "\n" ++ SpanTrace.formatTrace store tr
  | .eraser _ inner => inner.display store

/-- The direct downcast of a type-erased error reference to the Heap
Attachment Wrapper type: succeeds exactly when the value is a heap
wrapper, yielding its snapshot (spec section 4.5, first path). -/
def ErrorVal.downcastHeap : ErrorVal → Option SpanTrace
  | .heapTraced tr _ => some tr
  | _ => none

/-- The erasure-tag check: an unforgeable tag carried only by eraser
values (spec section 4.4). -/
def ErrorVal.isEraser : ErrorVal → Bool
  | .eraser _ _ => true
  | _ => false

/-- Whether a value is one of the two Attachment Wrappers. -/
def ErrorVal.isWrapper : ErrorVal → Bool
  | .heapTraced _ _ => true
  | .stackTraced _ _ => true
  | _ => false

/-- Reinterpreting a tagged eraser reference to reach the enclosing
wrapper's snapshot; yields nothing on an untagged value (spec
section 4.4). -/
def ErrorVal.eraserTrace : ErrorVal → Option SpanTrace
  | .eraser tr _ => some tr
  | _ => none

/-- Modelled from the spec: the `ExtractSpanTrace::span_trace` query
(`heap_error.rs` / `stack_error.rs` implementations are not under src/;
the trait signature is `lib.rs` lines 183-201).  First attempt a direct
downcast to the Heap Attachment Wrapper; if that fails, walk exactly one
step via the cause and check the erasure tag; otherwise return the normal
empty result (spec section 4.5). -/
def ErrorVal.span_trace (e : ErrorVal) : Option SpanTrace :=
  match e.downcastHeap with
  | some tr => some tr
  | none => e.source.bind ErrorVal.eraserTrace

/-- The `span_trace` call as seen through its receiver: the method takes
`&self` (a shared reference, `lib.rs` line 200) and returns the optional
snapshot together with the untouched error, mirroring that a shared
borrow cannot consume or mutate the receiver. -/
def ErrorVal.span_trace_call (e : ErrorVal) :
    Option SpanTrace × ErrorVal :=
  (e.span_trace, e)

/-- All snapshots stored inside an error value's wrapper and eraser nodes;
the optional snapshot `span_trace` returns is borrowed from the error, so
it must be one of these. -/
def ErrorVal.tracesIn : ErrorVal → List SpanTrace
  | .base _ none => []
  | .base _ (some c) => c.tracesIn
  | .heapTraced tr inner => tr :: inner.tracesIn
  | .stackTraced tr inner => tr :: inner.tracesIn
  | .eraser tr inner => tr :: inner.tracesIn

/-- Modelled from the spec: `InstrumentError::in_current_span` (trait in
`lib.rs` lines 142-159): captures the current snapshot and wraps the error
with the one Attachment Wrapper selected by the build configuration —
the stack wrapper when the `stack-error` feature is on, the heap wrapper
otherwise (spec section 4.6, `lib.rs` lines 129-140). -/
def instrument (stackError : Bool) (tr : SpanTrace) (e : ErrorVal) :
    ErrorVal :=
  if stackError then .stackTraced tr e else .heapTraced tr e

/-- Modelled from the spec: `InstrumentResult::in_current_span` (trait in
`lib.rs` lines 161-181): maps only the error arm of a `Result`, passing
the success value through unchanged (spec section 4.6). -/
def in_current_span_result {α : Type} (stackError : Bool)
    (tr : SpanTrace) : Except ErrorVal α → Except ErrorVal α
  | .ok v => .ok v
  | .error e => .error (instrument stackError tr e)

/-- The two attachment strategies `lib.rs` can compile in. -/
inductive AttachmentStrategy : Type where
  | heap : AttachmentStrategy
  | stack : AttachmentStrategy
deriving DecidableEq, Repr

/-- The list of `TracedError` types exported by the crate for a given
build configuration, mirroring the two feature-gated `pub use` items of
`lib.rs` lines 136-140: the heap variant under
`#[cfg(not(feature = "stack-error"))]` and the stack variant under
`#[cfg(feature = "stack-error")]`. -/
def exported_traced_error (stackError : Bool) : List AttachmentStrategy :=
  (if stackError = false then [AttachmentStrategy.heap] else []) ++
    (if stackError = true then [AttachmentStrategy.stack] else [])

/-- Concrete fixtures used by witness theorems. -/
def wRecA : ScopeRecord := ⟨1, "A", "app"⟩

/-- Second concrete scope fixture. -/
def wRecB : ScopeRecord := ⟨2, "B", "app"⟩

/-- A concrete Extension Store fixture holding field renderings for the
two fixture scopes. -/
def wStore : Store := [(1, "x=1"), (2, "y=2")]

/-- A concrete captured snapshot fixture (scope B innermost, A root). -/
def wTrace : SpanTrace := [wRecB, wRecA]

/-- A concrete base error fixture. -/
def wErr : ErrorVal := ErrorVal.base "boom" none

/-- Helper: if an error's cause is a tagged eraser carrying snapshot `tr`,
then `tr` is one of the snapshots stored inside the error value. -/
theorem source_eraser_mem :
    ∀ (e c : ErrorVal) (tr : SpanTrace),
      e.source = some c → c.eraserTrace = some tr → tr ∈ e.tracesIn
  | .base _ none, _, _, hs, _ => by
      simp [ErrorVal.source] at hs
  | .base m (some c0), c, tr, hs, ht => by
      simp [ErrorVal.source] at hs
      subst hs
      cases c0 <;> simp_all [ErrorVal.eraserTrace, ErrorVal.tracesIn]
  | .heapTraced tr0 i, c, tr, hs, ht => by
      simp [ErrorVal.source] at hs
      subst hs
      cases i <;> simp_all [ErrorVal.eraserTrace, ErrorVal.tracesIn]
  | .stackTraced tr0 i, c, tr, hs, ht => by
      simp [ErrorVal.source] at hs
      subst hs
      simp [ErrorVal.eraserTrace] at ht
      simp [ErrorVal.tracesIn, ht]
  | .eraser tr0 i, c, tr, hs, ht => by
      have hmem := source_eraser_mem i c tr (by simpa [ErrorVal.source] using hs) ht
      simp [ErrorVal.tracesIn]
      exact Or.inr hmem

/-- C1: for every error value and snapshot, the Stack Attachment Wrapper
behaves externally like the Heap Attachment Wrapper: same construction
surface (both produced by the single `instrument` entry point, selected by
the build flag), identical Display output, and identical extractability of
the snapshot through the type-erased `span_trace` query. -/
theorem c1_stack_heap_equivalent (store : Store) (tr : SpanTrace)
    (e : ErrorVal) :
    (ErrorVal.heapTraced tr e).display store =
      (ErrorVal.stackTraced tr e).display store ∧
    (ErrorVal.heapTraced tr e).span_trace = some tr ∧
    (ErrorVal.stackTraced tr e).span_trace = some tr ∧
    instrument false tr e = ErrorVal.heapTraced tr e ∧
    instrument true tr e = ErrorVal.stackTraced tr e :=
  ⟨rfl, rfl, rfl, rfl, rfl⟩

/-- C2: extraction first tries the direct downcast to the Heap Attachment
Wrapper; failing that it walks exactly one cause hop and checks the
erasure tag; consequently a wrapper nested two or more cause hops below
the given reference is never found by a single call. -/
theorem c2_extraction_one_hop :
    (∀ (tr : SpanTrace) (e : ErrorVal),
        (ErrorVal.heapTraced tr e).span_trace = some tr) ∧
    (∀ e : ErrorVal, e.downcastHeap = none →
        e.span_trace = e.source.bind ErrorVal.eraserTrace) ∧
    (∀ (m : String) (c : ErrorVal), c.isEraser = false →
        (ErrorVal.base m (some c)).span_trace = none) := by
  refine ⟨fun tr e => rfl, ?_, ?_⟩
  · intro e h
    unfold ErrorVal.span_trace
    rw [h]
  · intro m c h
    cases c <;>
      simp_all [ErrorVal.span_trace, ErrorVal.downcastHeap, ErrorVal.source,
        ErrorVal.eraserTrace, ErrorVal.isEraser]

/-- Witness for C2: a heap wrapper sitting two cause hops below the
queried reference is not found. -/
theorem c2_extraction_one_hop_witness :
    (ErrorVal.base "outer"
        (some (ErrorVal.base "mid"
          (some (ErrorVal.heapTraced wTrace wErr))))).span_trace = none :=
  c2_extraction_one_hop.2.2 "outer"
    (ErrorVal.base "mid" (some (ErrorVal.heapTraced wTrace wErr))) rfl

/-- C3: for either wrapper (selected by the build flag), wrapping an error
and then extracting yields exactly the snapshot captured at wrap time, so
its formatted text matches the wrap-time formatting; and the wrapper's
cause chain still reaches a node displaying the original error's message —
the erasure hop loses nothing for display purposes. -/
theorem c3_wrap_extract_roundtrip (store : Store) (cfg : Bool)
    (tr : SpanTrace) (e : ErrorVal) :
    (instrument cfg tr e).span_trace = some tr ∧
    ((instrument cfg tr e).span_trace).map (SpanTrace.formatTrace store) =
      some (SpanTrace.formatTrace store tr) ∧
    ∃ c, (instrument cfg tr e).source = some c ∧
      c.display store = e.display store := by
  cases cfg
  · exact ⟨rfl, rfl, ⟨e, rfl, rfl⟩⟩
  · exact ⟨rfl, rfl, ⟨ErrorVal.eraser tr e, rfl, rfl⟩⟩

/-- C4: on an error that is not an Attachment Wrapper and whose immediate
cause carries neither a wrapper nor an eraser, `span_trace` returns the
normal empty result `none`; the query is a total function, so this outcome
is never a panic or a fresh error. -/
theorem c4_no_wrapper_yields_none (e : ErrorVal)
    (h1 : e.isWrapper = false)
    (h2 : ∀ c, e.source = some c →
      c.isWrapper = false ∧ c.isEraser = false) :
    e.span_trace = none := by
  have hdc : e.downcastHeap = none := by
    cases e <;> simp_all [ErrorVal.downcastHeap, ErrorVal.isWrapper]
  unfold ErrorVal.span_trace
  rw [hdc]
  cases hs : e.source with
  | none => rfl
  | some c =>
      have hc := (h2 c hs).2
      cases c <;> simp_all [ErrorVal.eraserTrace, ErrorVal.isEraser]

/-- Witness for C4: a plain error over a plain cause extracts to `none`. -/
theorem c4_no_wrapper_yields_none_witness :
    (ErrorVal.base "io error"
        (some (ErrorVal.base "root" none))).span_trace = none :=
  c4_no_wrapper_yields_none _ rfl
    (by intro c hc; cases hc; exact ⟨rfl, rfl⟩)

/-- C5: capturing at the innermost point of a nonempty scope stack entered
in order S1 (outermost) through SD (innermost) formats to exactly D lines,
line i being the rendering of S(i+1) at index i: the root-most scope at
index 0 and the capture-point scope at index D-1. -/
theorem c5_depth_indexing (store : Store) (entry : List ScopeRecord)
    (h : entry ≠ []) :
    SpanTrace.formatLines store (SpanTrace.capture entry.reverse) =
      entry.enum.map (fun p => scopeLine store p.1 p.2) ∧
    (SpanTrace.formatLines store (SpanTrace.capture entry.reverse)).length =
      entry.length := by
  have hrev : entry.reverse ≠ ([] : List ScopeRecord) := by
    simpa using h
  have heq : SpanTrace.formatLines store (SpanTrace.capture entry.reverse) =
      entry.enum.map (fun p => scopeLine store p.1 p.2) := by
    unfold SpanTrace.formatLines SpanTrace.capture
    rw [if_neg hrev, List.reverse_reverse]
  refine ⟨heq, ?_⟩
  rw [heq]
  simp

/-- Witness for C5: scopes A (with x=1) then B (with y=2) format to two
lines, A at index 0 and B at index 1. -/
theorem c5_depth_indexing_witness :
    SpanTrace.formatLines wStore
        (SpanTrace.capture ([wRecA, wRecB]).reverse) =
      [scopeLine wStore 0 wRecA, scopeLine wStore 1 wRecB] ∧
    scopeLine wStore 0 wRecA = "   0: app::A with x=1" ∧
    scopeLine wStore 1 wRecB = "   1: app::B with y=2" := by
  have h := c5_depth_indexing wStore [wRecA, wRecB] (by simp)
  refine ⟨?_, rfl, rfl⟩
  rw [h.1]
  rfl

/-- C6: capturing with no active scope is total and yields the empty
sentinel, whose rendering is the single fixed placeholder line,
verbatim. -/
theorem c6_empty_capture_placeholder (store : Store) :
    SpanTrace.capture [] = ([] : SpanTrace) ∧
    SpanTrace.formatLines store (SpanTrace.capture []) = [noSpanLine] ∧
    SpanTrace.formatTrace store (SpanTrace.capture []) = noSpanLine := by
  refine ⟨rfl, rfl, ?_⟩
  rfl

/-- C7: formatting the same snapshot twice against the same store state
(no intervening scope teardown) produces identical output: formatting is
a deterministic function of the snapshot and the store. -/
theorem c7_format_deterministic (store : Store) (st : SpanTrace) :
    (SpanTrace.formatTwice store st).1 =
      (SpanTrace.formatTwice store st).2 ∧
    SpanTrace.formatTrace store st = SpanTrace.formatTrace store st :=
  ⟨rfl, rfl⟩

/-- C8: result-level instrumentation maps only the error arm: every `ok`
value passes through unchanged and every `error` value is wrapped by the
configured instrumentation. -/
theorem c8_result_error_arm_only {α : Type} (cfg : Bool) (tr : SpanTrace)
    (v : α) (e : ErrorVal) :
    in_current_span_result cfg tr (Except.ok v : Except ErrorVal α) =
      Except.ok v ∧
    in_current_span_result cfg tr (Except.error e : Except ErrorVal α) =
      Except.error (instrument cfg tr e) :=
  ⟨rfl, rfl⟩

/-- C9: for every build configuration exactly one `TracedError` is
exported: the heap strategy exactly when the stack-error feature is off,
the stack strategy exactly when it is on, and never both. -/
theorem c9_single_strategy_export (b : Bool) :
    (exported_traced_error b).length = 1 ∧
    (exported_traced_error b = [AttachmentStrategy.heap] ↔ b = false) ∧
    (exported_traced_error b = [AttachmentStrategy.stack] ↔ b = true) ∧
    ¬ (AttachmentStrategy.heap ∈ exported_traced_error b ∧
        AttachmentStrategy.stack ∈ exported_traced_error b) := by
  cases b <;> decide

/-- C10: extraction is read-only and repeatable: the call leaves the
error unchanged, calling it again on the unchanged error returns the
same result, and any snapshot it returns is one stored inside the error
(borrowed from it). -/
theorem c10_extraction_read_only (e : ErrorVal) :
    (ErrorVal.span_trace_call e).2 = e ∧
    (ErrorVal.span_trace_call ((ErrorVal.span_trace_call e).2)).1 =
      (ErrorVal.span_trace_call e).1 ∧
    ∀ tr, e.span_trace = some tr → tr ∈ e.tracesIn := by
  refine ⟨rfl, rfl, ?_⟩
  intro tr h
  cases e with
  | base m s =>
      cases s with
      | none =>
          simp [ErrorVal.span_trace, ErrorVal.downcastHeap,
            ErrorVal.source] at h
      | some c =>
          simp only [ErrorVal.span_trace, ErrorVal.downcastHeap,
            ErrorVal.source, Option.some_bind] at h
          exact source_eraser_mem (ErrorVal.base m (some c)) c tr rfl h
  | heapTraced tr0 i =>
      simp [ErrorVal.span_trace, ErrorVal.downcastHeap] at h
      simp [ErrorVal.tracesIn, h]
  | stackTraced tr0 i =>
      simp [ErrorVal.span_trace, ErrorVal.downcastHeap, ErrorVal.source,
        ErrorVal.eraserTrace] at h
      simp [ErrorVal.tracesIn, h]
  | eraser tr0 i =>
      simp only [ErrorVal.span_trace, ErrorVal.downcastHeap,
        ErrorVal.source] at h
      cases hs : i.source with
      | none =>
          rw [hs] at h
          simp at h
      | some c =>
          rw [hs] at h
          simp only [Option.some_bind] at h
          have hm := source_eraser_mem i c tr hs h
          simp only [ErrorVal.tracesIn, List.mem_cons]
          exact Or.inr hm

/-- Witness for C10: on a concrete heap-wrapped error the call leaves the
error unchanged and the extracted snapshot is the stored one. -/
theorem c10_extraction_read_only_witness :
    (ErrorVal.span_trace_call (ErrorVal.heapTraced wTrace wErr)).2 =
      ErrorVal.heapTraced wTrace wErr ∧
    wTrace ∈ (ErrorVal.heapTraced wTrace wErr).tracesIn :=
  ⟨(c10_extraction_read_only (ErrorVal.heapTraced wTrace wErr)).1,
    (c10_extraction_read_only (ErrorVal.heapTraced wTrace wErr)).2.2
      wTrace rfl⟩
